import Mathlib

/-!
Verification of the agentic query loop of the AIOps_insights backend.

The development shallowly embeds the PLAN/ACT query graph
(`backend/services/llm_flow/{graph,nodes,toolkit,utils}.py`), the session
registry (`backend/state.py`) and the query/execute HTTP boundary
(`backend/api/query/router.py`).  The language model (`ChatOpenAI.invoke`)
is external and is modelled as an oracle assigning a response message to
each planning invocation; SQL execution (`SQLDatabaseFromEngine.run_sql`,
backed by SQLAlchemy/SQLite) is likewise external and is modelled as an
oracle field of the database handle.  The state-graph fold (langgraph) is
modelled with LastValue channel semantics: `QueryGraphState` declares its
`messages`/`results` fields without reducer annotations, so each node's
returned update replaces the field rather than appending to it; nodes
themselves only ever emit fresh messages and artifacts, exactly as in the
source.
-/

/-- Scalar value returned by SQL execution (NULL, text or numeric). -/
inductive SqlValue where
  | null : SqlValue
  | text (s : String) : SqlValue
  | num (n : Int) : SqlValue
deriving DecidableEq, Repr

/-- Arguments of a tool invocation, covering the three tool schemas
(`_ListTablesInput`, `_InfoTablesInput`, `_ExecuteSQLInput`).  Each tool
reads only its own fields; defaults mirror the pydantic defaults. -/
structure ToolArgs where
  query : String := ""
  for_chart : Bool := false
  table_names : String := ""
deriving DecidableEq, Repr

/-- A tool invocation requested by the model: name, argument mapping and
correlation identifier (langchain `tool_call`). -/
structure ToolCall where
  name : String
  args : ToolArgs
  id : String
deriving DecidableEq, Repr

/-- Conversation message (langchain `HumanMessage` / `AIMessage` /
`ToolMessage`).  For model messages, `kwargsHasToolCalls` records whether
the key `tool_calls` is present in `additional_kwargs`; human and tool
messages have an empty `additional_kwargs`. -/
inductive Msg where
  | human (content : String) : Msg
  | ai (content : String) (toolCalls : List ToolCall) (kwargsHasToolCalls : Bool) : Msg
  | tool (content : String) (name : String) (toolCallId : String) : Msg
deriving DecidableEq, Repr

/-- Whether `"tool_calls" in message.additional_kwargs` holds
(`ShouldCallToolCondition.run`'s test). -/
def Msg.hasToolCallsKwarg : Msg → Bool
  | .ai _ _ kw => kw
  | _ => false

/-- The tool calls of a model message; `none` for other roles, modelling
that only `AIMessage` carries the `tool_calls` attribute. -/
def Msg.aiToolCalls : Msg → Option (List ToolCall)
  | .ai _ tcs _ => some tcs
  | _ => none

/-- Result artifact (`models.py`): SQL-text, SQL-run or chart result. -/
inductive ResultArtifact where
  | sqlString (sql : String) (forChart : Bool) : ResultArtifact
  | sqlRun (columns : List String) (rows : List (List SqlValue))
      (forChart : Bool) (linkedId : Option String) : ResultArtifact
  | chart (chartjsJson : String) (chartType : String) (linkedId : Option String) : ResultArtifact
deriving DecidableEq, Repr

/-- Query options (`models.QueryOptions`). -/
structure QueryOptions where
  secure_data : Bool := true
  openai_api_key : Option String := none
  openai_base_url : Option String := none
  llm_model : String := "gpt-4o-mini"
deriving DecidableEq, Repr

/-- The per-session database handle (`SQLDatabaseFromEngine`): table
catalogue (name with ordered column name/type pairs) for introspection,
and the external SQL engine modelled as an oracle from SQL text to either
an error message or columns and rows. -/
structure ToolDB where
  tables : List (String × List (String × String))
  runSql : String → Except String (List String × List (List SqlValue))

/-- `SQLDatabaseFromEngine.get_table_names`. -/
def ToolDB.get_table_names (db : ToolDB) : List String :=
  db.tables.map (·.1)

/-- `inspect(engine).get_columns name`: the column list of a table, or a
lookup failure for an unknown table (sqlalchemy `NoSuchTableError`). -/
def ToolDB.get_columns (db : ToolDB) (name : String) : Except String (List (String × String)) :=
  match db.tables.lookup name with
  | some cols => .ok cols
  | none => .error ("no such table: " ++ name)

/-- One table's schema rendering in `get_table_info`:
`CREATE TABLE name (col type, ...)`. -/
def renderTable (name : String) (cols : List (String × String)) : String :=
  "CREATE TABLE " ++ name ++ " (" ++
    String.intercalate ", " (cols.map (fun c => c.1 ++ " " ++ c.2)) ++ ")"

/-- The list of per-table renderings collected by
`SQLDatabaseFromEngine.get_table_info`'s loop; the first unknown table
aborts the loop with the lookup failure. -/
def tableInfos (db : ToolDB) : List String → Except String (List String)
  | [] => .ok []
  | n :: rest => do
      let cols ← db.get_columns n
      let tail ← tableInfos db rest
      pure (renderTable n cols :: tail)

/-- `SQLDatabaseFromEngine.get_table_info`: the renderings joined by a
blank line. -/
def ToolDB.get_table_info (db : ToolDB) (names : List String) : Except String String :=
  (tableInfos db names).map (String.intercalate "\n\n")

/-- Characters stripped from both ends, modelling Python `str.strip()`. -/
def stripChars (l : List Char) : List Char :=
  ((l.dropWhile Char.isWhitespace).reverse.dropWhile Char.isWhitespace).reverse

/-- Python `str.strip()` on a string. -/
def pyStrip (s : String) : String := ⟨stripChars s.data⟩

/-- Python `str.split(",")` on the character list: segments between comma
occurrences, in order; the empty input yields one empty segment. -/
def splitComma : List Char → List (List Char)
  | [] => [[]]
  | c :: rest =>
      match splitComma rest with
      | [] => [[]]
      | seg :: segs => if c = ',' then [] :: seg :: segs else (c :: seg) :: segs

/-- `InfoTablesTool._run`'s argument parsing:
`[t.strip() for t in table_names.split(",") if t.strip()]`. -/
def parseTableNames (table_names : String) : List String :=
  (((splitComma table_names.data).map (fun seg => (⟨stripChars seg⟩ : String))).filter
    (fun t => t ≠ ""))

/-- `InfoTablesTool._run`: parse the comma-separated names and render the
schema text; a lookup failure propagates. -/
def infoTablesRun (db : ToolDB) (table_names : String) : Except String String :=
  db.get_table_info (parseTableNames table_names)

/-- A node's state update (`QueryGraphStateUpdate`). -/
structure StateUpdate where
  messages : List Msg
  results : List ResultArtifact
deriving DecidableEq, Repr

/-- `state_update` with both fields given. -/
def state_update (messages : List Msg) (results : List ResultArtifact) : StateUpdate :=
  { messages := messages, results := results }

/-- Concatenation of two updates, as `CallToolNode.run` extends its
accumulators with each invocation's output in encounter order. -/
def StateUpdate.append (u v : StateUpdate) : StateUpdate :=
  { messages := u.messages ++ v.messages, results := u.results ++ v.results }

/-- The fixed tool-role acknowledgment content of a successful
`ExecuteSQLTool.get_response`. -/
def execSuccessContent : String :=
  "Query executed successfully. I cannot display raw data if secure mode is enabled; describe it instead."

/-- `ExecuteSQLTool.get_response`: builds the SQL-text artifact, runs the
query; on success adds the SQL-run artifact and an acknowledgment tool
message, on failure only an `ERROR: `-prefixed tool message.  The
internal `try`/`except` makes this total. -/
def executeSQLGetResponse (db : ToolDB) (args : ToolArgs) (callId : String) : StateUpdate :=
  let sqlResult := ResultArtifact.sqlString args.query args.for_chart
  match db.runSql args.query with
  | .ok (cols, rows) =>
      state_update
        [Msg.tool execSuccessContent "sql_db_query" callId]
        [sqlResult, ResultArtifact.sqlRun cols (rows.map (fun r => r)) args.for_chart none]
  | .error e =>
      state_update [Msg.tool ("ERROR: " ++ e) "sql_db_query" callId] [sqlResult]

/-- `InfoTablesTool.get_response`: run the schema lookup and wrap it as a
tool message; there is no `try`, so a failure propagates out. -/
def infoTablesGetResponse (db : ToolDB) (args : ToolArgs) (callId : String) :
    Except String StateUpdate :=
  (infoTablesRun db args.table_names).map
    (fun resp => state_update [Msg.tool resp "sql_db_schema" callId] [])

/-- An ASCII single quote, as Python `repr` uses around strings. -/
def pySquote : String := String.singleton (Char.ofNat 39)

/-- Python `str` of a list of strings, as `CallToolNode.run` stringifies
`ListTablesTool`'s return value. -/
def pyReprStrList (xs : List String) : String :=
  "[" ++ String.intercalate ", " (xs.map (fun s => pySquote ++ s ++ pySquote)) ++ "]"

/-- The closed set of tools registered by `SQLDatabaseToolkit.get_tools`
with execution allowed (the default used by `CallModelNode`). -/
inductive Tool where
  | listTables : Tool
  | infoTables : Tool
  | executeSQL : Tool
deriving DecidableEq, Repr

/-- The `tool_map` built by `SQLDatabaseToolkit.get_tools`; an unknown
name is absent (a `KeyError` at lookup). -/
def toolMap : String → Option Tool
  | "list_sql_tables" => some .listTables
  | "sql_db_schema" => some .infoTables
  | "sql_db_query" => some .executeSQL
  | _ => none

/-- One iteration of `CallToolNode.run`'s loop: resolve the tool by name
and run it.  State-updating tools contribute their `get_response` update;
the plain `list_sql_tables` tool's return value is stringified into a
single tool message.  An unresolved name or an uncaught tool exception is
an error. -/
def runToolCall (db : ToolDB) (tc : ToolCall) : Except String StateUpdate :=
  match toolMap tc.name with
  | none => .error ("KeyError: " ++ tc.name)
  | some .infoTables => infoTablesGetResponse db tc.args tc.id
  | some .executeSQL => .ok (executeSQLGetResponse db tc.args tc.id)
  | some .listTables =>
      .ok (state_update [Msg.tool (pyReprStrList db.get_table_names) "list_sql_tables" tc.id] [])

/-- The loop body of `CallToolNode.run` over the remaining tool calls: an
exception raised by any invocation propagates out of the node, discarding
the update built so far. -/
def runToolCalls (db : ToolDB) : List ToolCall → Except String StateUpdate
  | [] => .ok (state_update [] [])
  | tc :: rest => do
      let u ← runToolCall db tc
      let v ← runToolCalls db rest
      pure (u.append v)

/-- `CallToolNode.run`: read the last message as the model message and run
each of its tool invocations in encounter order. -/
def callToolNode (db : ToolDB) (lastMsg : Msg) : Except String StateUpdate :=
  match lastMsg.aiToolCalls with
  | none => .error "AttributeError: tool_calls"
  | some tcs => runToolCalls db tcs

/-- The conversation state (`QueryGraphState`): messages, accumulated
result artifacts, query options and the user's question.  The toolkit
reference is carried separately as the `ToolDB` parameter of the loop. -/
structure QueryGraphState where
  messages : List Msg
  results : List ResultArtifact
  options : QueryOptions
  user_query : String
deriving DecidableEq, Repr

/-- Graph node names: `call_model` (PLAN), `perform_action` (ACT) and the
langgraph `END` sentinel (DONE). -/
inductive NodeTag where
  | callModel : NodeTag
  | performAction : NodeTag
  | endNode : NodeTag
deriving DecidableEq, Repr

/-- `ShouldCallToolCondition.run`: look at the last message; `END` when
`tool_calls` is absent from its `additional_kwargs`, else the ACT node.
`none` models the `IndexError` on an empty history. -/
def shouldCallToolCondition (messages : List Msg) : Option NodeTag :=
  match messages.getLast? with
  | none => none
  | some last =>
      some (if last.hasToolCallsKwarg then NodeTag.performAction else NodeTag.endNode)

/-- `CallModelNode.run`'s update: exactly the model response as one
model-role message and no result artifacts. -/
def callModelUpdate (response : Msg) : StateUpdate :=
  state_update [response] []

/-- Folding one node's update into the conversation state: langgraph's
LastValue channels — `QueryGraphState` carries no reducer annotations on
`messages`/`results`, so each node's returned update replaces the stored
sequence instead of extending it. -/
def applyUpdate (s : QueryGraphState) (u : StateUpdate) : QueryGraphState :=
  { s with messages := u.messages, results := u.results }

/-- The model oracle: the response `ChatOpenAI.invoke` returns for the
i-th planning invocation of a query run. -/
def ModelOracle : Type := Nat → Msg

/-- A configuration of the compiled graph run: current node, conversation
state, number of planning invocations performed, and the pending uncaught
exception if a node raised. -/
structure LoopCfg where
  node : NodeTag
  gs : QueryGraphState
  planIdx : Nat
  crashed : Option String
deriving Repr

/-- One PLAN step: append the model response, then evaluate
`ShouldCallToolCondition` on the new state to pick the next node.  The
emitted chunk is the node's update. -/
def planStep (oracle : ModelOracle) (c : LoopCfg) : LoopCfg × List StateUpdate :=
  let u := callModelUpdate (oracle c.planIdx)
  let gs := applyUpdate c.gs u
  match shouldCallToolCondition gs.messages with
  | none => ({ c with crashed := some "IndexError" }, [])
  | some nxt => ({ node := nxt, gs := gs, planIdx := c.planIdx + 1, crashed := none }, [u])

/-- One ACT step: run `CallToolNode` on the last message; on success fold
its update in and take the unconditional edge back to `call_model`; an
uncaught exception aborts the run. -/
def actStep (db : ToolDB) (c : LoopCfg) : LoopCfg × List StateUpdate :=
  match c.gs.messages.getLast? with
  | none => ({ c with crashed := some "IndexError" }, [])
  | some lastMsg =>
      match callToolNode db lastMsg with
      | .error e => ({ c with crashed := some e }, [])
      | .ok u => ({ c with node := NodeTag.callModel, gs := applyUpdate c.gs u }, [u])

/-- One step of the compiled graph, together with the chunk streamed for
it (`app.astream` yields one update per completed node). -/
def loopStep (db : ToolDB) (oracle : ModelOracle) (c : LoopCfg) : LoopCfg × List StateUpdate :=
  if c.crashed.isSome then (c, [])
  else
    match c.node with
    | .callModel => planStep oracle c
    | .performAction => actStep db c
    | .endNode => (c, [])

/-- The configuration reached after one step. -/
def loopNext (db : ToolDB) (oracle : ModelOracle) (c : LoopCfg) : LoopCfg :=
  (loopStep db oracle c).1

/-- The configuration reached after `n` steps. -/
def runCfg (db : ToolDB) (oracle : ModelOracle) (n : Nat) (c : LoopCfg) : LoopCfg :=
  (loopNext db oracle)^[n] c

/-- Run the graph for at most `fuel` steps (the source has no iteration
cap; `fuel` is only the depth of observation): the streamed chunks in
order, and the final configuration. -/
def runLoop (db : ToolDB) (oracle : ModelOracle) :
    Nat → LoopCfg → List StateUpdate × LoopCfg
  | 0, c => ([], c)
  | n + 1, c =>
      if c.crashed.isSome || c.node == NodeTag.endNode then ([], c)
      else
        let s := loopStep db oracle c
        let r := runLoop db oracle n s.1
        (s.2 ++ r.1, r.2)

/-- The initial state of a query run (`QueryGraphService.query`):
`_initial_messages` returns `[]`, results start empty, entry point is
`call_model`. -/
def initCfg (user_query : String) (options : QueryOptions) : LoopCfg :=
  { node := NodeTag.callModel
    gs := { messages := [], results := [], options := options, user_query := user_query }
    planIdx := 0
    crashed := none }

/-- Server-push events of the query boundary. -/
inductive StreamEvent where
  | addResult (r : ResultArtifact) : StreamEvent
  | endEvent (ok : Bool) : StreamEvent
deriving DecidableEq, Repr

/-- The `ADD_RESULT` events of one streamed chunk. -/
def chunkEvents (u : StateUpdate) : List StreamEvent :=
  u.results.map StreamEvent.addResult

/-- The event stream of `query`'s `stream()` generator: every chunk's
results as `ADD_RESULT` events in order, and the single terminal `END`
event once the loop reaches `DONE`; an uncaught exception aborts the
stream without an `END`, and an unfinished loop has not emitted it yet. -/
def queryStream (db : ToolDB) (oracle : ModelOracle) (fuel : Nat)
    (user_query : String) (options : QueryOptions) : List StreamEvent :=
  let r := runLoop db oracle fuel (initCfg user_query options)
  let adds := (r.1.map chunkEvents).flatten
  if r.2.crashed.isNone && r.2.node == NodeTag.endNode then
    adds ++ [StreamEvent.endEvent true]
  else adds

/-- The session registry (`state.SessionStore`): an association of session
identifiers to live database handles. -/
structure SessionStore where
  engines : List (String × ToolDB)

/-- `SessionStore.get_engine`: dictionary `get`, `none` when absent. -/
def SessionStore.get_engine (st : SessionStore) (session_id : String) : Option ToolDB :=
  st.engines.lookup session_id

/-- The `query` endpoint (`api/query/router.py`): an unknown session is a
hard failure raised before the streaming response is constructed;
otherwise the response is the event stream of the graph run with
`QueryOptions(secure_data=secure_data)`. -/
def queryEndpoint (st : SessionStore) (session_id prompt : String) (secure_data : Bool)
    (oracle : ModelOracle) (fuel : Nat) : Except String (List StreamEvent) :=
  match st.get_engine session_id with
  | none => .error "Invalid session_id. Upload CSV first."
  | some db =>
      .ok (queryStream db oracle fuel prompt { secure_data := secure_data })

/-- Python `str.lower()`, character-wise. -/
def lowerStr (s : String) : String := ⟨s.data.map Char.toLower⟩

/-- Whether `pat` occurs as a contiguous run in `l` (Python `in` on
strings, on the character list). -/
def occursInChars (pat : List Char) : List Char → Bool
  | [] => pat.isEmpty
  | c :: rest => pat.isPrefixOf (c :: rest) || occursInChars pat rest

/-- Python `pat in s` for strings. -/
def occursIn (pat s : String) : Bool := occursInChars pat.data s.data

/-- A client-facing response of the direct SQL boundary: either the
columns/rows payload or an `HTTPException` with status and detail. -/
inductive ExecResponse where
  | ok (columns : List String) (rows : List (List SqlValue)) (for_chart : Bool) : ExecResponse
  | httpError (status : Nat) (detail : String) : ExecResponse
deriving DecidableEq, Repr

/-- The error classification of the `execute_sql` endpoint: substring
match on the lowercased message, column-not-found before syntax-error
before the generic category. -/
def classifySqlError (e : String) : Nat × String :=
  if occursIn "no such column" (lowerStr e) then
    (400, "SQL Error: Column not found. " ++ e)
  else if occursIn "syntax error" (lowerStr e) then
    (400, "SQL Syntax Error: " ++ e)
  else
    (500, "SQL execution failed: " ++ e)

/-- The `execute_sql` endpoint (`api/query/router.py`): session lookup,
run the SQL, normalize rows to lists; an execution error is classified
into an `HTTPException`. -/
def executeSqlEndpoint (st : SessionStore) (session_id sql : String) (for_chart : Bool) :
    ExecResponse :=
  match st.get_engine session_id with
  | none => .httpError 400 "Invalid session_id. Upload CSV first."
  | some db =>
      match db.runSql sql with
      | .ok (cols, rows) => .ok cols (rows.map (fun r => r)) for_chart
      | .error e => .httpError (classifySqlError e).1 (classifySqlError e).2

deriving instance DecidableEq for Except

/-!  ## Concrete fixtures used by witness instantiations -/

/-- A concrete session database: the single `data` table and a SQL engine
that answers `SELECT 1` and fails on everything else. -/
def exdb : ToolDB :=
  { tables := [("data", [("x", "TEXT"), ("y", "INTEGER")])]
    runSql := fun q =>
      if q = "SELECT 1" then .ok (["1"], [[SqlValue.num 1]])
      else .error ("near " ++ q ++ ": syntax error") }

/-- A concrete model oracle that always answers without tool calls. -/
def exOracle : ModelOracle := fun _ => Msg.ai "done" [] false

/-!  ## C2 -/

/-- C2: for an `execute_sql` invocation whose SQL execution succeeds with
N rows of M columns, `ExecuteSQLTool.get_response` appends exactly the
SQL-text artifact followed by the SQL-run artifact and one tool-role
acknowledgment message; the SQL-run artifact carries exactly the returned
rows, so its row count is N and each of its rows has length M. -/
theorem execute_sql_success_artifacts (db : ToolDB) (q : String) (fc : Bool) (callId : String)
    (N M : Nat) (cols : List String) (rows : List (List SqlValue))
    (hrun : db.runSql q = .ok (cols, rows))
    (hN : rows.length = N) (hM : ∀ r ∈ rows, r.length = M) :
    executeSQLGetResponse db { query := q, for_chart := fc } callId =
      state_update [Msg.tool execSuccessContent "sql_db_query" callId]
        [ResultArtifact.sqlString q fc, ResultArtifact.sqlRun cols rows fc none] ∧
    rows.length = N ∧ (∀ r ∈ rows, r.length = M) := by
  refine ⟨?_, hN, hM⟩
  simp [executeSQLGetResponse, hrun, state_update]

/-- Witness for C2 at a concrete succeeding query. -/
theorem execute_sql_success_artifacts_witness :
    exdb.runSql "SELECT 1" = .ok (["1"], [[SqlValue.num 1]]) ∧
    (executeSQLGetResponse exdb { query := "SELECT 1", for_chart := false } "c1" =
      state_update [Msg.tool execSuccessContent "sql_db_query" "c1"]
        [ResultArtifact.sqlString "SELECT 1" false,
         ResultArtifact.sqlRun ["1"] [[SqlValue.num 1]] false none] ∧
    ([[SqlValue.num 1]] : List (List SqlValue)).length = 1 ∧
    (∀ r ∈ ([[SqlValue.num 1]] : List (List SqlValue)), r.length = 1)) :=
  ⟨by decide,
   execute_sql_success_artifacts exdb "SELECT 1" false "c1" 1 1 ["1"] [[SqlValue.num 1]]
     (by decide) rfl (by decide)⟩

/-!  ## C3 -/

/-- C3: for an `execute_sql` invocation whose SQL execution fails, the
Execution Step appends exactly one SQL-text artifact and zero SQL-run
artifacts plus one `ERROR: `-prefixed tool message, and the graph's
unconditional `perform_action → call_model` edge returns the loop to PLAN
instead of aborting. -/
theorem execute_sql_failure_artifacts (db : ToolDB) (oracle : ModelOracle) (c : LoopCfg)
    (q : String) (fc : Bool) (callId e content : String) (kw : Bool)
    (herr : db.runSql q = .error e)
    (hc : c.crashed = none) (hnode : c.node = NodeTag.performAction)
    (hlast : c.gs.messages.getLast? =
      some (Msg.ai content [⟨"sql_db_query", { query := q, for_chart := fc }, callId⟩] kw)) :
    executeSQLGetResponse db { query := q, for_chart := fc } callId =
      state_update [Msg.tool ("ERROR: " ++ e) "sql_db_query" callId]
        [ResultArtifact.sqlString q fc] ∧
    (loopNext db oracle c).node = NodeTag.callModel ∧
    (loopNext db oracle c).crashed = none ∧
    (loopStep db oracle c).2 =
      [state_update [Msg.tool ("ERROR: " ++ e) "sql_db_query" callId]
        [ResultArtifact.sqlString q fc]] := by
  have hresp : executeSQLGetResponse db { query := q, for_chart := fc } callId =
      state_update [Msg.tool ("ERROR: " ++ e) "sql_db_query" callId]
        [ResultArtifact.sqlString q fc] := by
    simp [executeSQLGetResponse, herr, state_update]
  have hstep : loopStep db oracle c =
      (⟨NodeTag.callModel,
        applyUpdate c.gs (state_update [Msg.tool ("ERROR: " ++ e) "sql_db_query" callId]
          [ResultArtifact.sqlString q fc]), c.planIdx, none⟩,
       [state_update [Msg.tool ("ERROR: " ++ e) "sql_db_query" callId]
         [ResultArtifact.sqlString q fc]]) := by
    unfold loopStep actStep
    rw [hc, hnode, hlast]
    simp [callToolNode, Msg.aiToolCalls, runToolCalls, runToolCall, toolMap, hresp,
      StateUpdate.append, state_update, Bind.bind, Except.bind, Pure.pure, Except.pure]
  refine ⟨hresp, ?_, ?_, ?_⟩
  · unfold loopNext; rw [hstep]
  · unfold loopNext; rw [hstep]
  · rw [hstep]

/-- A concrete ACT-phase configuration whose model message requests one
failing `execute_sql` invocation. -/
def exFailCfg : LoopCfg :=
  { node := NodeTag.performAction
    gs := { messages := [Msg.ai "" [⟨"sql_db_query", { query := "BAD" }, "c2"⟩] true]
            results := []
            options := {}
            user_query := "q" }
    planIdx := 1
    crashed := none }

/-- Witness for C3 at a concrete failing query. -/
theorem execute_sql_failure_artifacts_witness :
    exdb.runSql "BAD" = .error "near BAD: syntax error" ∧
    (executeSQLGetResponse exdb { query := "BAD", for_chart := false } "c2" =
      state_update [Msg.tool ("ERROR: " ++ "near BAD: syntax error") "sql_db_query" "c2"]
        [ResultArtifact.sqlString "BAD" false] ∧
    (loopNext exdb exOracle exFailCfg).node = NodeTag.callModel ∧
    (loopNext exdb exOracle exFailCfg).crashed = none ∧
    (loopStep exdb exOracle exFailCfg).2 =
      [state_update [Msg.tool ("ERROR: " ++ "near BAD: syntax error") "sql_db_query" "c2"]
        [ResultArtifact.sqlString "BAD" false]]) :=
  ⟨by decide,
   execute_sql_failure_artifacts exdb exOracle exFailCfg "BAD" false "c2"
     "near BAD: syntax error" "" true (by decide) rfl rfl (by decide)⟩

/-!  ## C4 -/

/-- The model message of the C4 counterexample: a failing schema lookup
followed by a sibling `execute_sql` invocation. -/
def c4msg : Msg :=
  Msg.ai ""
    [⟨"sql_db_schema", { table_names := "missing" }, "1"⟩,
     ⟨"sql_db_query", { query := "SELECT 1" }, "2"⟩] true

/-- C4 counterexample: in the source, only `ExecuteSQLTool.get_response`
has a `try`/`except`; a schema-lookup failure in `sql_db_schema`
propagates out of `CallToolNode.run`, aborting the whole Execution Step
with no error-bearing tool message and without executing the sibling
`execute_sql` invocation — refuting the claim for tools other than
`execute_sql`. -/
theorem tool_error_aborts_step_counterexample :
    callToolNode exdb c4msg = Except.error "no such table: missing" := by
  decide

/-- The tool message `ExecuteSQLTool.get_response` emits for one
invocation: the fixed acknowledgment on success, the `ERROR: `-prefixed
message on failure. -/
def execMsg (db : ToolDB) (args : ToolArgs) (callId : String) : Msg :=
  match db.runSql args.query with
  | .ok _ => Msg.tool execSuccessContent "sql_db_query" callId
  | .error e => Msg.tool ("ERROR: " ++ e) "sql_db_query" callId

/-- `ExecuteSQLTool.get_response` always emits exactly one tool message,
namely `execMsg`. -/
theorem executeSQLGetResponse_messages (db : ToolDB) (args : ToolArgs) (callId : String) :
    (executeSQLGetResponse db args callId).messages = [execMsg db args callId] := by
  unfold executeSQLGetResponse execMsg
  cases h : db.runSql args.query with
  | ok v => cases v with | mk cols rows => simp [state_update]
  | error e => simp [state_update]

/-- `CallToolNode.run` on a list of `execute_sql`-only invocations never
raises: each invocation contributes exactly one tool message (its
`execMsg`) and its artifacts, in encounter order. -/
theorem runToolCalls_all_execute (db : ToolDB) (tcs : List ToolCall)
    (hall : ∀ tc ∈ tcs, tc.name = "sql_db_query") :
    runToolCalls db tcs =
      Except.ok (state_update
        (tcs.map (fun tc => execMsg db tc.args tc.id))
        ((tcs.map (fun tc => (executeSQLGetResponse db tc.args tc.id).results)).flatten)) := by
  induction tcs with
  | nil => simp [runToolCalls, state_update]
  | cons tc rest ih =>
      have hname : tc.name = "sql_db_query" := hall tc (List.mem_cons_self tc rest)
      have hrest : ∀ t ∈ rest, t.name = "sql_db_query" :=
        fun t ht => hall t (List.mem_cons_of_mem tc ht)
      simp only [runToolCalls, runToolCall, hname, toolMap, ih hrest,
        Bind.bind, Except.bind, Pure.pure, Except.pure, List.map_cons, List.flatten_cons]
      simp [StateUpdate.append, state_update, executeSQLGetResponse_messages]

/-- C4 (amended): failures raised by `execute_sql` invocations are caught
and converted into `ERROR: `-prefixed tool messages without aborting the
Execution Step, and sibling `execute_sql` invocations in the same step
still execute (one tool message per invocation, in order); this holds for
`execute_sql` only — for the other registry tools an uncaught failure
aborts the whole step (see the counterexample). -/
theorem execute_sql_errors_confined (db : ToolDB) (content : String) (kw : Bool)
    (tcs : List ToolCall) (hall : ∀ tc ∈ tcs, tc.name = "sql_db_query") :
    callToolNode db (Msg.ai content tcs kw) =
      Except.ok (state_update
        (tcs.map (fun tc => execMsg db tc.args tc.id))
        ((tcs.map (fun tc => (executeSQLGetResponse db tc.args tc.id).results)).flatten)) ∧
    (∀ tc ∈ tcs, ∀ e, db.runSql tc.args.query = .error e →
      execMsg db tc.args tc.id = Msg.tool ("ERROR: " ++ e) "sql_db_query" tc.id) := by
  refine ⟨?_, ?_⟩
  · simp only [callToolNode, Msg.aiToolCalls]
    exact runToolCalls_all_execute db tcs hall
  · intro tc _ e he
    unfold execMsg
    rw [he]

/-- Witness for the amended C4: two `execute_sql` invocations, the first
failing and the second succeeding, both produce their tool message. -/
theorem execute_sql_errors_confined_witness :
    (∀ tc ∈ [(⟨"sql_db_query", { query := "BAD" }, "a"⟩ : ToolCall),
             ⟨"sql_db_query", { query := "SELECT 1" }, "b"⟩], tc.name = "sql_db_query") ∧
    (callToolNode exdb (Msg.ai "" [⟨"sql_db_query", { query := "BAD" }, "a"⟩,
        ⟨"sql_db_query", { query := "SELECT 1" }, "b"⟩] true) =
      Except.ok (state_update
        ([(⟨"sql_db_query", { query := "BAD" }, "a"⟩ : ToolCall),
          ⟨"sql_db_query", { query := "SELECT 1" }, "b"⟩].map
            (fun tc => execMsg exdb tc.args tc.id))
        (([(⟨"sql_db_query", { query := "BAD" }, "a"⟩ : ToolCall),
           ⟨"sql_db_query", { query := "SELECT 1" }, "b"⟩].map
            (fun tc => (executeSQLGetResponse exdb tc.args tc.id).results)).flatten)) ∧
    (∀ tc ∈ [(⟨"sql_db_query", { query := "BAD" }, "a"⟩ : ToolCall),
             ⟨"sql_db_query", { query := "SELECT 1" }, "b"⟩],
      ∀ e, exdb.runSql tc.args.query = .error e →
        execMsg exdb tc.args tc.id = Msg.tool ("ERROR: " ++ e) "sql_db_query" tc.id)) :=
  ⟨by decide,
   execute_sql_errors_confined exdb "" true
     [⟨"sql_db_query", { query := "BAD" }, "a"⟩, ⟨"sql_db_query", { query := "SELECT 1" }, "b"⟩]
     (by decide)⟩

/-!  ## C1 -/

/-- C1: evaluated after each PLAN step, `ShouldCallToolCondition` sends
the loop to the terminal `END` node when the fresh model message carries
no tool invocations (its `additional_kwargs` lacks `tool_calls`, which
for well-formed model responses coincides with an empty tool-call list)
and to the ACT node otherwise; and after every completed ACT step the
graph's unconditional edge returns to the PLAN node. -/
theorem plan_act_transitions (db : ToolDB) (oracle : ModelOracle) (c : LoopCfg)
    (hc : c.crashed = none) :
    (∀ content tcs kw, c.node = NodeTag.callModel →
      oracle c.planIdx = Msg.ai content tcs kw → kw = !tcs.isEmpty →
      ((tcs = [] → (loopNext db oracle c).node = NodeTag.endNode) ∧
       (tcs ≠ [] → (loopNext db oracle c).node = NodeTag.performAction))) ∧
    (∀ lastM u, c.node = NodeTag.performAction →
      c.gs.messages.getLast? = some lastM → callToolNode db lastM = Except.ok u →
      (loopNext db oracle c).node = NodeTag.callModel) := by
  constructor
  · intro content tcs kw hnode hresp hkw
    have hlast : (c.gs.messages ++ [Msg.ai content tcs kw]).getLast? =
        some (Msg.ai content tcs kw) := by simp
    constructor
    · intro htcs
      subst htcs
      unfold loopNext loopStep planStep
      rw [hc, hnode]
      simp [callModelUpdate, applyUpdate, state_update, shouldCallToolCondition, hresp, hlast,
        Msg.hasToolCallsKwarg, hkw]
    · intro htcs
      have hkw' : kw = true := by
        rw [hkw]
        simpa [List.isEmpty_iff] using htcs
      unfold loopNext loopStep planStep
      rw [hc, hnode]
      simp [callModelUpdate, applyUpdate, state_update, shouldCallToolCondition, hresp, hlast,
        Msg.hasToolCallsKwarg, hkw']
  · intro lastM u hnode hlast hok
    unfold loopNext loopStep actStep
    rw [hc, hnode, hlast]
    simp [hok]

/-- Witness for C1: a tool-call-free response ends the loop, a tool-call
response enters ACT, and a completed ACT step returns to PLAN. -/
theorem plan_act_transitions_witness :
    ((exFailCfg.crashed = none) ∧
      exOracle exFailCfg.planIdx = Msg.ai "done" [] false ∧
      (false = !(List.isEmpty ([] : List ToolCall))) ∧
      exFailCfg.gs.messages.getLast? =
        some (Msg.ai "" [⟨"sql_db_query", { query := "BAD" }, "c2"⟩] true) ∧
      callToolNode exdb (Msg.ai "" [⟨"sql_db_query", { query := "BAD" }, "c2"⟩] true) =
        Except.ok (state_update [Msg.tool ("ERROR: " ++ "near BAD: syntax error") "sql_db_query" "c2"]
          [ResultArtifact.sqlString "BAD" false])) ∧
    (loopNext exdb exOracle exFailCfg).node = NodeTag.callModel :=
  ⟨⟨rfl, rfl, by decide, by decide, by decide⟩,
   (plan_act_transitions exdb exOracle exFailCfg rfl).2
     (Msg.ai "" [⟨"sql_db_query", { query := "BAD" }, "c2"⟩] true)
     (state_update [Msg.tool ("ERROR: " ++ "near BAD: syntax error") "sql_db_query" "c2"]
       [ResultArtifact.sqlString "BAD" false])
     rfl (by decide) (by decide)⟩

/-!  ## C5 -/

/-- A run standing at `END` or with a pending exception emits nothing
more and stays put, for any remaining fuel. -/
theorem runLoop_halt (db : ToolDB) (oracle : ModelOracle) (n : Nat) (c : LoopCfg)
    (h : (c.crashed.isSome || c.node == NodeTag.endNode) = true) :
    runLoop db oracle n c = ([], c) := by
  cases n with
  | zero => rfl
  | succ m => simp [runLoop, h]

/-- C5: when the first model response carries no tool invocations, the
loop terminates after exactly one PLAN step — the only chunk is the
planning update with one model-role message and no result artifacts — and
the outward stream is exactly one `END` event with no `ADD_RESULT`
events, regardless of the remaining fuel. -/
theorem first_response_no_tools_single_plan (db : ToolDB) (oracle : ModelOracle)
    (fuel : Nat) (q : String) (opts : QueryOptions) (content : String)
    (h0 : oracle 0 = Msg.ai content [] false) :
    runLoop db oracle (fuel + 1) (initCfg q opts) =
      ([state_update [Msg.ai content [] false] []],
       ⟨NodeTag.endNode,
        ⟨[Msg.ai content [] false], [], opts, q⟩, 1, none⟩) ∧
    queryStream db oracle (fuel + 1) q opts = [StreamEvent.endEvent true] := by
  have hstep : loopStep db oracle (initCfg q opts) =
      (⟨NodeTag.endNode, ⟨[Msg.ai content [] false], [], opts, q⟩, 1, none⟩,
       [state_update [Msg.ai content [] false] []]) := by
    unfold loopStep planStep initCfg
    simp [h0, callModelUpdate, applyUpdate, state_update, shouldCallToolCondition,
      Msg.hasToolCallsKwarg]
  have hrun : runLoop db oracle (fuel + 1) (initCfg q opts) =
      ([state_update [Msg.ai content [] false] []],
       ⟨NodeTag.endNode, ⟨[Msg.ai content [] false], [], opts, q⟩, 1, none⟩) := by
    unfold runLoop
    rw [hstep]
    simp [initCfg, runLoop_halt]
  refine ⟨hrun, ?_⟩
  unfold queryStream
  rw [hrun]
  simp [chunkEvents, state_update]

/-- Witness for C5 at a concrete oracle and session. -/
theorem first_response_no_tools_single_plan_witness :
    exOracle 0 = Msg.ai "done" [] false ∧
    (runLoop exdb exOracle 4 (initCfg "q" {}) =
      ([state_update [Msg.ai "done" [] false] []],
       ⟨NodeTag.endNode, ⟨[Msg.ai "done" [] false], [], {}, "q"⟩, 1, none⟩) ∧
    queryStream exdb exOracle 4 "q" {} = [StreamEvent.endEvent true]) :=
  ⟨rfl, first_response_no_tools_single_plan exdb exOracle 3 "q" {} "done" rfl⟩

/-!  ## C6 -/

/-- C6: a request on the query boundary whose session identifier is not
in the session registry fails hard before the stream is constructed: the
endpoint raises and never produces a list of streamed events. -/
theorem unknown_session_fails_before_stream (st : SessionStore) (sid prompt : String)
    (secure_data : Bool) (oracle : ModelOracle) (fuel : Nat)
    (h : st.get_engine sid = none) :
    queryEndpoint st sid prompt secure_data oracle fuel =
      Except.error "Invalid session_id. Upload CSV first." ∧
    ∀ events : List StreamEvent,
      queryEndpoint st sid prompt secure_data oracle fuel ≠ Except.ok events := by
  have he : queryEndpoint st sid prompt secure_data oracle fuel =
      Except.error "Invalid session_id. Upload CSV first." := by
    unfold queryEndpoint
    rw [h]
  exact ⟨he, fun events hok => by rw [he] at hok; exact Except.noConfusion hok⟩

/-- Witness for C6 on the empty session registry. -/
theorem unknown_session_fails_before_stream_witness :
    (SessionStore.mk []).get_engine "nope" = none ∧
    queryEndpoint (SessionStore.mk []) "nope" "question" true exOracle 3 =
      Except.error "Invalid session_id. Upload CSV first." :=
  ⟨rfl,
   (unknown_session_fails_before_stream (SessionStore.mk []) "nope" "question" true
     exOracle 3 rfl).1⟩

/-!  ## C9 -/

/-- C9 counterexample: the artifact list in the Conversation State is not
append-only.  After the ACT step of `exFailCfg` the state holds the
SQL-text artifact; the following PLAN step returns `results=[]`
(`state_update`'s default) and the LastValue channel replaces the stored
list with it, removing the artifact created by the earlier step. -/
theorem plan_overwrites_artifacts_counterexample :
    (runCfg exdb exOracle 1 exFailCfg).gs.results = [ResultArtifact.sqlString "BAD" false] ∧
    (runCfg exdb exOracle 2 exFailCfg).gs.results = ([] : List ResultArtifact) ∧
    ¬ (runCfg exdb exOracle 1 exFailCfg).gs.results <+:
      (runCfg exdb exOracle 2 exFailCfg).gs.results := by
  refine ⟨by decide, by decide, ?_⟩
  intro h
  rw [show (runCfg exdb exOracle 1 exFailCfg).gs.results =
      [ResultArtifact.sqlString "BAD" false] by decide,
    show (runCfg exdb exOracle 2 exFailCfg).gs.results = ([] : List ResultArtifact)
      by decide] at h
  simpa using h.length_le

/-- C9 (amended): each node only ever emits freshly created artifacts,
and what the program accumulates — the stream of per-step chunks, from
which the `ADD_RESULT` events are emitted — is append-only: the chunk
sequence produced after `n` steps is a prefix of the one after `n + k`
steps, so no step retracts or modifies a previously streamed artifact.
Inside the Conversation State itself, however, the LastValue fold
replaces the artifact list with each node's update (each PLAN step writes
the empty list over the preceding ACT step's artifacts), so the stored
list is not append-only — see the counterexample. -/
theorem streamed_chunks_append_only (db : ToolDB) (oracle : ModelOracle) :
    ∀ (n : Nat) (c : LoopCfg) (k : Nat),
    (runLoop db oracle n c).1 <+: (runLoop db oracle (n + k) c).1 := by
  intro n
  induction n with
  | zero => intro c k; exact List.nil_prefix
  | succ m ih =>
      intro c k
      rw [show m + 1 + k = (m + k) + 1 by omega]
      unfold runLoop
      by_cases hguard : (c.crashed.isSome || c.node == NodeTag.endNode) = true
      · simp [hguard]
      · simp only [hguard, Bool.false_eq_true, if_false]
        obtain ⟨t, ht⟩ := ih (loopStep db oracle c).1 k
        exact ⟨t, by rw [List.append_assoc, ht]⟩

/-!  ## C8 -/

/-- Replace the query options carried in a configuration, leaving the
node, messages, artifacts and counters untouched. -/
def setCfgOptions (c : LoopCfg) (o : QueryOptions) : LoopCfg :=
  ⟨c.node, ⟨c.gs.messages, c.gs.results, o, c.gs.user_query⟩, c.planIdx, c.crashed⟩

/-- No node of the graph reads the query options once the model responses
are fixed by the oracle: one step commutes with replacing the options. -/
theorem loopStep_setOptions (db : ToolDB) (oracle : ModelOracle) (c : LoopCfg)
    (o : QueryOptions) :
    loopStep db oracle (setCfgOptions c o) =
      (setCfgOptions (loopStep db oracle c).1 o, (loopStep db oracle c).2) := by
  obtain ⟨node, ⟨msgs, res, o0, uq⟩, pIdx, cr⟩ := c
  cases cr with
  | some e => rfl
  | none =>
      cases node with
      | endNode => rfl
      | callModel =>
          unfold loopStep planStep setCfgOptions
          simp only [applyUpdate, callModelUpdate, state_update]
          cases h : shouldCallToolCondition [oracle pIdx] <;> simp [h]
      | performAction =>
          unfold loopStep actStep setCfgOptions
          simp only
          cases hl : msgs.getLast? with
          | none => simp [hl]
          | some lastMsg =>
              cases ht : callToolNode db lastMsg with
              | error e => simp [hl, ht]
              | ok u => simp [hl, ht, applyUpdate]

/-- The chunks streamed by a run are independent of the query options,
and the final configuration only differs in the options it carries. -/
theorem runLoop_setOptions (db : ToolDB) (oracle : ModelOracle) :
    ∀ (n : Nat) (c : LoopCfg) (o : QueryOptions),
    runLoop db oracle n (setCfgOptions c o) =
      ((runLoop db oracle n c).1, setCfgOptions (runLoop db oracle n c).2 o) := by
  intro n
  induction n with
  | zero => intro c o; rfl
  | succ m ih =>
      intro c o
      unfold runLoop
      have hcr : (setCfgOptions c o).crashed = c.crashed := rfl
      have hn : (setCfgOptions c o).node = c.node := rfl
      rw [hcr, hn]
      by_cases hguard : (c.crashed.isSome || c.node == NodeTag.endNode) = true
      · simp [hguard]
      · simp only [hguard, Bool.false_eq_true, if_false]
        rw [loopStep_setOptions, ih]

/-- C8: with the model responses and SQL results held fixed, the streamed
chunks (tool messages and result artifacts) and the outward event stream
of a query run are identical whether the secure-mode flag is true or
false — secure mode performs no server-side redaction. -/
theorem secure_mode_no_redaction (db : ToolDB) (oracle : ModelOracle) (fuel : Nat)
    (q : String) (opts : QueryOptions) :
    (runLoop db oracle fuel (initCfg q { opts with secure_data := true })).1 =
      (runLoop db oracle fuel (initCfg q { opts with secure_data := false })).1 ∧
    queryStream db oracle fuel q { opts with secure_data := true } =
      queryStream db oracle fuel q { opts with secure_data := false } := by
  have hinit : initCfg q { opts with secure_data := true } =
      setCfgOptions (initCfg q { opts with secure_data := false })
        { opts with secure_data := true } := rfl
  have hrun := runLoop_setOptions db oracle fuel
    (initCfg q { opts with secure_data := false }) { opts with secure_data := true }
  constructor
  · rw [hinit, hrun]
  · unfold queryStream
    rw [hinit, hrun]
    rfl

/-!  ## C7 -/

/-- Occurrence of a pattern that is fixed by a character map survives
mapping the text: used to relate case-sensitive containment to the
endpoint's lowercased check. -/
theorem occursInChars_map (f : Char → Char) (pat : List Char) (hpat : pat.map f = pat) :
    ∀ l : List Char, occursInChars pat l = true → occursInChars pat (l.map f) = true := by
  intro l
  induction l with
  | nil => simp [occursInChars]
  | cons c rest ih =>
      intro h
      simp only [occursInChars, Bool.or_eq_true] at h
      simp only [List.map_cons, occursInChars, Bool.or_eq_true]
      rcases h with h | h
      · left
        have hp : pat <+: c :: rest := List.isPrefixOf_iff_prefix.mp h
        have hm := hp.map f
        rw [hpat] at hm
        exact List.isPrefixOf_iff_prefix.mpr (by simpa using hm)
      · right
        exact ih h

/-- Case-sensitive containment implies containment in the lowercased
string, for a pattern fixed by lowercasing. -/
theorem occursIn_lower_of_occursIn (pat s : String)
    (hpat : pat.data.map Char.toLower = pat.data)
    (h : occursIn pat s = true) : occursIn pat (lowerStr s) = true := by
  unfold occursIn lowerStr at *
  exact occursInChars_map Char.toLower pat.data hpat s.data h

/-- C7: the direct SQL boundary classifies execution errors by substring
match — a message containing `no such column` (checked case-insensitively
via lowercasing) yields the column-not-found category with status 400,
otherwise one containing `syntax error` yields the syntax-error category
with status 400, otherwise the generic execution-failure category with
status 500 — and the three client-facing details are pairwise distinct. -/
theorem sql_error_classification (st : SessionStore) (sid sql : String) (fc : Bool)
    (db : ToolDB) (e : String)
    (hdb : st.get_engine sid = some db) (herr : db.runSql sql = .error e) :
    (occursIn "no such column" e = true →
      executeSqlEndpoint st sid sql fc =
        ExecResponse.httpError 400 ("SQL Error: Column not found. " ++ e)) ∧
    (occursIn "no such column" (lowerStr e) = false → occursIn "syntax error" e = true →
      executeSqlEndpoint st sid sql fc =
        ExecResponse.httpError 400 ("SQL Syntax Error: " ++ e)) ∧
    (occursIn "no such column" (lowerStr e) = false →
      occursIn "syntax error" (lowerStr e) = false →
      executeSqlEndpoint st sid sql fc =
        ExecResponse.httpError 500 ("SQL execution failed: " ++ e)) ∧
    ("SQL Error: Column not found. " ++ e ≠ "SQL Syntax Error: " ++ e) ∧
    ("SQL Error: Column not found. " ++ e ≠ "SQL execution failed: " ++ e) ∧
    ("SQL Syntax Error: " ++ e ≠ "SQL execution failed: " ++ e) := by
  have hbase : executeSqlEndpoint st sid sql fc =
      ExecResponse.httpError (classifySqlError e).1 (classifySqlError e).2 := by
    unfold executeSqlEndpoint
    rw [hdb]
    simp [herr]
  refine ⟨?_, ?_, ?_, ?_, ?_, ?_⟩
  · intro h
    have hlow : occursIn "no such column" (lowerStr e) = true :=
      occursIn_lower_of_occursIn "no such column" e (by decide) h
    rw [hbase]
    unfold classifySqlError
    rw [hlow]
    simp
  · intro hno hsyn
    have hlow : occursIn "syntax error" (lowerStr e) = true :=
      occursIn_lower_of_occursIn "syntax error" e (by decide) hsyn
    rw [hbase]
    unfold classifySqlError
    rw [hno, hlow]
    simp
  · intro hno hsyn
    rw [hbase]
    unfold classifySqlError
    rw [hno, hsyn]
    simp
  · intro h
    have hl := congrArg String.length h
    rw [String.length_append, String.length_append] at hl
    have h1 : ("SQL Error: Column not found. ").length = 29 := rfl
    have h2 : ("SQL Syntax Error: ").length = 18 := rfl
    omega
  · intro h
    have hl := congrArg String.length h
    rw [String.length_append, String.length_append] at hl
    have h1 : ("SQL Error: Column not found. ").length = 29 := rfl
    have h2 : ("SQL execution failed: ").length = 22 := rfl
    omega
  · intro h
    have hl := congrArg String.length h
    rw [String.length_append, String.length_append] at hl
    have h1 : ("SQL Syntax Error: ").length = 18 := rfl
    have h2 : ("SQL execution failed: ").length = 22 := rfl
    omega

/-- A one-session registry for the witnesses of the endpoint claims. -/
def exStore : SessionStore := SessionStore.mk [("s1", exdb)]

/-- Witness for C7: a failing query on a registered session falls into
the syntax-error category. -/
theorem sql_error_classification_witness :
    exStore.get_engine "s1" = some exdb ∧
    exdb.runSql "BAD" = .error "near BAD: syntax error" ∧
    occursIn "no such column" (lowerStr "near BAD: syntax error") = false ∧
    occursIn "syntax error" "near BAD: syntax error" = true ∧
    executeSqlEndpoint exStore "s1" "BAD" false =
      ExecResponse.httpError 400 ("SQL Syntax Error: " ++ "near BAD: syntax error") :=
  ⟨rfl, by decide, by decide, by decide,
   (sql_error_classification exStore "s1" "BAD" false exdb "near BAD: syntax error"
     rfl (by decide)).2.1 (by decide) (by decide)⟩

/-!  ## C10 -/

/-- `splitComma` always yields at least one segment. -/
theorem splitComma_ex (l : List Char) : ∃ seg segs, splitComma l = seg :: segs := by
  induction l with
  | nil => exact ⟨[], [], rfl⟩
  | cons c rest ih =>
      obtain ⟨s, ss, h⟩ := ih
      by_cases hc : c = ','
      · exact ⟨[], s :: ss, by simp [splitComma, h, hc]⟩
      · exact ⟨c :: s, ss, by simp [splitComma, h, hc]⟩

/-- If the input consists only of commas and whitespace, every split
segment consists of whitespace only. -/
theorem splitComma_segments_ws (l : List Char) (h : ∀ c ∈ l, c = ',' ∨ c.isWhitespace) :
    ∀ seg ∈ splitComma l, ∀ c ∈ seg, c.isWhitespace := by
  induction l with
  | nil =>
      intro seg hseg c hc
      simp [splitComma] at hseg
      subst hseg
      simp at hc
  | cons a rest ih =>
      have hrest : ∀ c ∈ rest, c = ',' ∨ c.isWhitespace :=
        fun c hc => h c (List.mem_cons_of_mem a hc)
      obtain ⟨s, ss, hsplit⟩ := splitComma_ex rest
      have ihs := ih hrest
      rw [hsplit] at ihs
      intro seg hseg c hc
      by_cases ha : a = ','
      · rw [show splitComma (a :: rest) = [] :: s :: ss by simp [splitComma, hsplit, ha]] at hseg
        rcases List.mem_cons.mp hseg with hseg | hseg
        · subst hseg; simp at hc
        · exact ihs seg hseg c hc
      · rw [show splitComma (a :: rest) = (a :: s) :: ss by simp [splitComma, hsplit, ha]] at hseg
        rcases List.mem_cons.mp hseg with hseg | hseg
        · subst hseg
          rcases List.mem_cons.mp hc with hc | hc
          · subst hc
            rcases h c (List.mem_cons_self c rest) with h1 | h1
            · exact absurd h1 ha
            · exact h1
          · exact ihs s (List.mem_cons_self s ss) c hc
        · exact ihs seg (List.mem_cons_of_mem s hseg) c hc

/-- Stripping an all-whitespace character list leaves nothing. -/
theorem stripChars_all_ws (l : List Char) (h : ∀ c ∈ l, c.isWhitespace) :
    stripChars l = [] := by
  unfold stripChars
  rw [List.dropWhile_eq_nil_iff.mpr h]
  simp

/-- An argument consisting only of commas and whitespace parses to the
empty name list. -/
theorem parseTableNames_ws (arg : String) (h : ∀ c ∈ arg.data, c = ',' ∨ c.isWhitespace) :
    parseTableNames arg = [] := by
  unfold parseTableNames
  rw [List.filter_eq_nil_iff]
  intro t ht
  obtain ⟨seg, hseg, rfl⟩ := List.mem_map.mp ht
  have hws := splitComma_segments_ws arg.data h seg hseg
  have : stripChars seg = [] := stripChars_all_ws seg hws
  simp [this]

/-- Each requested table that is present contributes exactly one
rendering; the lookup loop succeeds with as many renderings as names. -/
theorem tableInfos_length (db : ToolDB) (names : List String)
    (h : ∀ n ∈ names, (db.tables.lookup n).isSome) :
    ∃ infos, tableInfos db names = .ok infos ∧ infos.length = names.length := by
  induction names with
  | nil => exact ⟨[], rfl, rfl⟩
  | cons n rest ih =>
      have hn : (db.tables.lookup n).isSome := h n (List.mem_cons_self n rest)
      obtain ⟨cols, hcols⟩ := Option.isSome_iff_exists.mp hn
      obtain ⟨tail, htail, hlen⟩ := ih (fun t ht => h t (List.mem_cons_of_mem n ht))
      refine ⟨renderTable n cols :: tail, ?_, by simp [hlen]⟩
      simp [tableInfos, ToolDB.get_columns, hcols, htail, Bind.bind, Except.bind,
        Pure.pure, Except.pure]

/-- C10: the describe-schema tool splits its comma-separated argument on
commas, trims each segment, and silently drops segments that trim to
nothing — an argument of only commas and whitespace yields the empty
schema text rather than a lookup failure — and when all k surviving names
are present the returned text is the junction of exactly k table
renderings. -/
theorem describe_schema_argument_parsing (db : ToolDB) (arg : String) :
    ((∀ c ∈ arg.data, c = ',' ∨ c.isWhitespace) → infoTablesRun db arg = .ok "") ∧
    ((∀ n ∈ parseTableNames arg, (db.tables.lookup n).isSome) →
      ∃ infos, tableInfos db (parseTableNames arg) = .ok infos ∧
        infos.length = (parseTableNames arg).length ∧
        infoTablesRun db arg = .ok (String.intercalate "\n\n" infos)) := by
  constructor
  · intro h
    unfold infoTablesRun ToolDB.get_table_info
    rw [parseTableNames_ws arg h]
    rfl
  · intro h
    obtain ⟨infos, hinfos, hlen⟩ := tableInfos_length db (parseTableNames arg) h
    refine ⟨infos, hinfos, hlen, ?_⟩
    unfold infoTablesRun ToolDB.get_table_info
    rw [hinfos]
    rfl

/-- Witness for C10: a commas-and-whitespace argument yields empty schema
text, and two valid names yield two renderings. -/
theorem describe_schema_argument_parsing_witness :
    (∀ c ∈ (" ,, , " : String).data, c = ',' ∨ c.isWhitespace) ∧
    infoTablesRun exdb " ,, , " = .ok "" ∧
    (∀ n ∈ parseTableNames "data, data", (exdb.tables.lookup n).isSome) ∧
    (∃ infos, tableInfos exdb (parseTableNames "data, data") = .ok infos ∧
      infos.length = (parseTableNames "data, data").length ∧
      infoTablesRun exdb "data, data" = .ok (String.intercalate "\n\n" infos)) :=
  ⟨by decide,
   (describe_schema_argument_parsing exdb " ,, , ").1 (by decide),
   by decide,
   (describe_schema_argument_parsing exdb "data, data").2 (by decide)⟩
